import Mathlib

/-!
Verification of the interior-estimator repository against its specification.

The repository's presentation layer (`src/app.py`) is present in source form;
the core calculation module `interior_estimator.core` (exporting `UnitPrices`,
`RoomMeasurements`, `EstimateItem`, `Estimate`, `create_estimate_for_room`,
`Estimate.to_text`, `Estimate.to_pdf`) is only declared by its package
`__init__` and called by `app.py`, so the calculator and renderers are
modelled from the specification.  Numeric values are embedded as exact
rationals (`ℚ`), following the specification's numeric semantics
("precision-preserving representation consistent throughout; round only at
presentation time").
-/

namespace InteriorEstimator

/-- Modelled from the spec: `interior_estimator.core` is not under `src/`.
PriceCatalog — per-unit prices for the four cost categories and the
labor-rate multiplier (spec §3). -/
structure PriceCatalog where
  wallCoveringUnitPrice : ℚ
  floorUnitPrice : ℚ
  baseboardUnitPrice : ℚ
  disposalUnitPrice : ℚ
  laborRateFraction : ℚ
deriving DecidableEq, Repr

/-- Modelled from the spec: `interior_estimator.core` is not under `src/`.
RoomMeasurement — room length, width, height and total opening area (spec §3). -/
structure RoomMeasurement where
  length : ℚ
  width : ℚ
  height : ℚ
  openingsArea : ℚ
deriving DecidableEq, Repr

/-- Modelled from the spec: floorArea = length × width. -/
def RoomMeasurement.floorArea (r : RoomMeasurement) : ℚ :=
  r.length * r.width

/-- Modelled from the spec: grossWallArea = 2 × (length + width) × height. -/
def RoomMeasurement.grossWallArea (r : RoomMeasurement) : ℚ :=
  2 * (r.length + r.width) * r.height

/-- Modelled from the spec: netWallArea = max(0, grossWallArea − openingsArea). -/
def RoomMeasurement.netWallArea (r : RoomMeasurement) : ℚ :=
  max 0 (r.grossWallArea - r.openingsArea)

/-- Modelled from the spec: baseboardLength = 2 × (length + width)
(perimeter, unadjusted for openings). -/
def RoomMeasurement.baseboardLength (r : RoomMeasurement) : ℚ :=
  2 * (r.length + r.width)

/-- Modelled from the spec: EstimateLineItem — label, quantity, unitPrice,
subtotal = quantity × unitPrice (spec §3). -/
structure EstimateLineItem where
  label : String
  quantity : ℚ
  unitPrice : ℚ
  subtotal : ℚ
deriving DecidableEq, Repr

/-- Modelled from the spec: a line item's subtotal is quantity × unitPrice. -/
def mkLineItem (label : String) (quantity unitPrice : ℚ) : EstimateLineItem :=
  { label := label, quantity := quantity, unitPrice := unitPrice,
    subtotal := quantity * unitPrice }

/-- Modelled from the spec: Estimate — ordered sequence of line items
(wall covering, flooring, baseboard, disposal, in that fixed order),
laborCost, materialSubtotal, grandTotal (spec §3). -/
structure Estimate where
  lineItems : List EstimateLineItem
  materialSubtotal : ℚ
  laborCost : ℚ
  grandTotal : ℚ
deriving DecidableEq, Repr

/-- Modelled from the spec: `create_estimate_for_room` /
`createEstimate(room, prices)` (spec §4.1).  Four line items in fixed order;
materialSubtotal = sum of the four subtotals;
laborCost = materialSubtotal × laborRateFraction;
grandTotal = materialSubtotal + laborCost. -/
def createEstimate (room : RoomMeasurement) (prices : PriceCatalog) : Estimate :=
  let wall := mkLineItem "wall covering" room.netWallArea prices.wallCoveringUnitPrice
  let flooring := mkLineItem "flooring" room.floorArea prices.floorUnitPrice
  let baseboard := mkLineItem "baseboard" room.baseboardLength prices.baseboardUnitPrice
  let disposal := mkLineItem "disposal" room.floorArea prices.disposalUnitPrice
  let materialSubtotal :=
    wall.subtotal + flooring.subtotal + baseboard.subtotal + disposal.subtotal
  let laborCost := materialSubtotal * prices.laborRateFraction
  { lineItems := [wall, flooring, baseboard, disposal],
    materialSubtotal := materialSubtotal,
    laborCost := laborCost,
    grandTotal := materialSubtotal + laborCost }

/-- Validity of a room measurement: all inputs non-negative (spec §3). -/
def RoomMeasurement.Valid (r : RoomMeasurement) : Prop :=
  0 ≤ r.length ∧ 0 ≤ r.width ∧ 0 ≤ r.height ∧ 0 ≤ r.openingsArea

/-- Validity of a price catalog: all unit prices non-negative and
laborRateFraction ∈ [0,1] (spec §3). -/
def PriceCatalog.Valid (p : PriceCatalog) : Prop :=
  0 ≤ p.wallCoveringUnitPrice ∧ 0 ≤ p.floorUnitPrice ∧ 0 ≤ p.baseboardUnitPrice ∧
    0 ≤ p.disposalUnitPrice ∧ 0 ≤ p.laborRateFraction ∧ p.laborRateFraction ≤ 1

instance (r : RoomMeasurement) : Decidable r.Valid := by
  unfold RoomMeasurement.Valid; infer_instance

instance (p : PriceCatalog) : Decidable p.Valid := by
  unfold PriceCatalog.Valid; infer_instance

/-- Modelled from the spec: error taxonomy (spec §7) — InvalidInput (negative
dimension or price, out-of-range labor rate) is reported to the caller before
calculation proceeds. -/
inductive EstimateError where
  | invalidInput
deriving DecidableEq, Repr

/-- Modelled from the spec: the validated entry point — InvalidInput is
reported before calculation; given valid inputs the calculation is a pure,
total mapping and never fails (spec §4.1, §7). -/
def createEstimateChecked (room : RoomMeasurement) (prices : PriceCatalog) :
    Except EstimateError Estimate :=
  if room.Valid ∧ prices.Valid then .ok (createEstimate room prices)
  else .error .invalidInput

/-- Scenario-1 room of spec §8: 5m × 4m × 2.5m, openings 0 m². -/
def roomS1 : RoomMeasurement := ⟨5, 4, 5/2, 0⟩

/-- Scenario-1 prices of spec §8: wall 1200/m², floor 8000/m², baseboard
900/m, disposal 500/m², labor rate 0.2. -/
def pricesS1 : PriceCatalog := ⟨1200, 8000, 900, 500, 1/5⟩

theorem roomS1_valid : roomS1.Valid := by
  refine ⟨by norm_num [roomS1], by norm_num [roomS1], by norm_num [roomS1],
    by norm_num [roomS1]⟩

theorem pricesS1_valid : pricesS1.Valid := by
  refine ⟨by norm_num [pricesS1], by norm_num [pricesS1], by norm_num [pricesS1],
    by norm_num [pricesS1], by norm_num [pricesS1], by norm_num [pricesS1]⟩

end InteriorEstimator

namespace InteriorEstimator

/-- C1: for every valid room and price catalog, the estimate produced by
`createEstimate` satisfies grandTotal = materialSubtotal × (1 + laborRateFraction),
grandTotal being materialSubtotal + laborCost and laborCost being
materialSubtotal × laborRateFraction. -/
theorem grandTotal_eq_material_times_one_plus_rate
    (room : RoomMeasurement) (prices : PriceCatalog)
    (_hroom : room.Valid) (_hprices : prices.Valid) :
    (createEstimate room prices).laborCost =
        (createEstimate room prices).materialSubtotal * prices.laborRateFraction ∧
      (createEstimate room prices).grandTotal =
        (createEstimate room prices).materialSubtotal +
          (createEstimate room prices).laborCost ∧
      (createEstimate room prices).grandTotal =
        (createEstimate room prices).materialSubtotal * (1 + prices.laborRateFraction) := by
  refine ⟨rfl, rfl, ?_⟩
  simp only [createEstimate]
  ring

/-- Witness for C1 at the spec's scenario-1 inputs. -/
theorem grandTotal_eq_material_times_one_plus_rate_witness :
    roomS1.Valid ∧ pricesS1.Valid ∧
      (createEstimate roomS1 pricesS1).grandTotal =
        (createEstimate roomS1 pricesS1).materialSubtotal * (1 + pricesS1.laborRateFraction) :=
  ⟨roomS1_valid, pricesS1_valid,
    (grandTotal_eq_material_times_one_plus_rate roomS1 pricesS1
      roomS1_valid pricesS1_valid).2.2⟩

/-- C2: for every room with non-negative inputs, floorArea = length × width,
grossWallArea = 2 × (length + width) × height,
netWallArea = max(0, grossWallArea − openingsArea) — clamped to 0 when
openingsArea exceeds grossWallArea and never negative — and
baseboardLength = 2 × (length + width). -/
theorem room_derived_quantities (r : RoomMeasurement) (_h : r.Valid) :
    r.floorArea = r.length * r.width ∧
      r.grossWallArea = 2 * (r.length + r.width) * r.height ∧
      r.netWallArea = max 0 (r.grossWallArea - r.openingsArea) ∧
      (r.grossWallArea ≤ r.openingsArea → r.netWallArea = 0) ∧
      0 ≤ r.netWallArea ∧
      r.baseboardLength = 2 * (r.length + r.width) := by
  refine ⟨rfl, rfl, rfl, ?_, ?_, rfl⟩
  · intro hle
    simp only [RoomMeasurement.netWallArea]
    exact max_eq_left (by linarith)
  · exact le_max_left 0 _

/-- Witness for C2 at a room whose openings exceed its gross wall area. -/
theorem room_derived_quantities_witness :
    (RoomMeasurement.mk 5 4 (5/2) 50).Valid ∧
      (RoomMeasurement.mk 5 4 (5/2) 50).netWallArea = 0 ∧
      (RoomMeasurement.mk 5 4 (5/2) 50).floorArea = 5 * 4 :=
  ⟨by constructor <;> norm_num,
    by
      have h := room_derived_quantities (RoomMeasurement.mk 5 4 (5/2) 50)
        (by constructor <;> norm_num)
      exact h.2.2.2.1
        (by norm_num [RoomMeasurement.grossWallArea, RoomMeasurement.openingsArea]),
    (room_derived_quantities (RoomMeasurement.mk 5 4 (5/2) 50)
      (by constructor <;> norm_num)).1⟩

/-- C3: for every valid pair, `createEstimate` yields exactly four line items
in the fixed order wall covering, flooring, baseboard, disposal, with
quantities netWallArea, floorArea, baseboardLength, floorArea (disposal
billed per floor area), each subtotal = quantity × unitPrice, and
materialSubtotal = sum of the four subtotals. -/
theorem createEstimate_line_items
    (room : RoomMeasurement) (prices : PriceCatalog)
    (_hroom : room.Valid) (_hprices : prices.Valid) :
    (createEstimate room prices).lineItems =
      [⟨"wall covering", room.netWallArea, prices.wallCoveringUnitPrice,
          room.netWallArea * prices.wallCoveringUnitPrice⟩,
        ⟨"flooring", room.floorArea, prices.floorUnitPrice,
          room.floorArea * prices.floorUnitPrice⟩,
        ⟨"baseboard", room.baseboardLength, prices.baseboardUnitPrice,
          room.baseboardLength * prices.baseboardUnitPrice⟩,
        ⟨"disposal", room.floorArea, prices.disposalUnitPrice,
          room.floorArea * prices.disposalUnitPrice⟩] ∧
      (∀ item ∈ (createEstimate room prices).lineItems,
        item.subtotal = item.quantity * item.unitPrice) ∧
      (createEstimate room prices).materialSubtotal =
        ((createEstimate room prices).lineItems.map EstimateLineItem.subtotal).sum := by
  refine ⟨rfl, ?_, ?_⟩
  · intro item hmem
    simp only [createEstimate, mkLineItem, List.mem_cons, List.not_mem_nil,
      or_false] at hmem
    rcases hmem with h | h | h | h <;> subst h <;> rfl
  · simp only [createEstimate, mkLineItem, List.map_cons, List.map_nil,
      List.sum_cons, List.sum_nil]
    ring

/-- Witness for C3 at the spec's scenario-1 inputs. -/
theorem createEstimate_line_items_witness :
    roomS1.Valid ∧ pricesS1.Valid ∧
      (createEstimate roomS1 pricesS1).materialSubtotal =
        ((createEstimate roomS1 pricesS1).lineItems.map EstimateLineItem.subtotal).sum :=
  ⟨roomS1_valid, pricesS1_valid,
    (createEstimate_line_items roomS1 pricesS1 roomS1_valid pricesS1_valid).2.2⟩

/-- C4: at the spec's scenario-1 inputs (room 5 × 4 × 2.5, openings 0, prices
wall 1200, floor 8000, baseboard 900, disposal 500, labor rate 0.2) the
derived quantities are floorArea 20, grossWallArea 45, netWallArea 45,
baseboardLength 18, the four subtotals are 54000, 160000, 16200, 10000, the
materialSubtotal is 240200, the laborCost 48040 and the grandTotal 288240. -/
theorem scenario1_values :
    roomS1.floorArea = 20 ∧ roomS1.grossWallArea = 45 ∧
      roomS1.netWallArea = 45 ∧ roomS1.baseboardLength = 18 ∧
      ((createEstimate roomS1 pricesS1).lineItems.map EstimateLineItem.subtotal) =
        [54000, 160000, 16200, 10000] ∧
      (createEstimate roomS1 pricesS1).materialSubtotal = 240200 ∧
      (createEstimate roomS1 pricesS1).laborCost = 48040 ∧
      (createEstimate roomS1 pricesS1).grandTotal = 288240 := by
  have hnet : (RoomMeasurement.mk 5 4 (5/2) 0).netWallArea = 45 := by
    norm_num [RoomMeasurement.netWallArea, RoomMeasurement.grossWallArea]
  refine ⟨by norm_num [roomS1, RoomMeasurement.floorArea],
    by norm_num [roomS1, RoomMeasurement.grossWallArea], by rw [roomS1]; exact hnet,
    by norm_num [roomS1, RoomMeasurement.baseboardLength], ?_, ?_, ?_, ?_⟩ <;>
    norm_num [createEstimate, mkLineItem, hnet, roomS1, pricesS1,
      RoomMeasurement.floorArea, RoomMeasurement.baseboardLength]

/-- C5: `createEstimate` is a pure total function; on any input satisfying
the type invariants the validated entry point takes no error branch and
returns the estimate. -/
theorem createEstimate_total_on_valid
    (room : RoomMeasurement) (prices : PriceCatalog)
    (hroom : room.Valid) (hprices : prices.Valid) :
    createEstimateChecked room prices = .ok (createEstimate room prices) := by
  simp only [createEstimateChecked, if_pos (And.intro hroom hprices)]

/-- Witness for C5 at the spec's scenario-1 inputs. -/
theorem createEstimate_total_on_valid_witness :
    roomS1.Valid ∧ pricesS1.Valid ∧
      createEstimateChecked roomS1 pricesS1 = .ok (createEstimate roomS1 pricesS1) :=
  ⟨roomS1_valid, pricesS1_valid,
    createEstimate_total_on_valid roomS1 pricesS1 roomS1_valid pricesS1_valid⟩

/-- Modelled from the spec: thousands-separator insertion on a reversed digit
list (a comma after every three digits). -/
def insertThousandsSep : List Char → List Char
  | a :: b :: c :: d :: rest => a :: b :: c :: ',' :: insertThousandsSep (d :: rest)
  | l => l

/-- Modelled from the spec: format a natural number with thousands
separators. -/
def formatThousands (n : Nat) : String :=
  String.mk (insertThousandsSep (toString n).data.reverse).reverse

/-- Modelled from the spec: rounding happens only at presentation time —
round a monetary amount half-up to the nearest whole currency unit. -/
def presentAmount (q : ℚ) : Nat :=
  ((q.num * 2 + (q.den : ℤ)) / (2 * (q.den : ℤ))).toNat

/-- Modelled from the spec: amounts are shown with thousands separators and
a currency symbol (spec §4.2). -/
def formatCurrency (q : ℚ) : String :=
  "¥" ++ formatThousands (presentAmount q)

/-- Modelled from the spec: the labor-cost line shows the rate percentage;
the Estimate carries laborCost and materialSubtotal, so the rate is
recovered from their ratio (0 when the material subtotal is 0). -/
def ratePercent (e : Estimate) : ℚ :=
  e.laborCost / e.materialSubtotal * 100

/-- Modelled from the spec: `Estimate.to_text` / `renderText(estimate)`
(spec §4.2) — a fixed-format multi-line report: a header, one line per line
item showing label, quantity, unit price and subtotal, a material-subtotal
line, a labor-cost line showing the rate percentage, and a grand-total
line. -/
def renderText (e : Estimate) : String :=
  String.intercalate "\n"
    (["Interior Renovation Estimate", "============================"] ++
      e.lineItems.map (fun item =>
        item.label ++ ": " ++ toString item.quantity ++ " x " ++
          formatCurrency item.unitPrice ++ " = " ++ formatCurrency item.subtotal) ++
      ["Material subtotal: " ++ formatCurrency e.materialSubtotal,
        "Labor cost (" ++ toString (ratePercent e) ++ "%): " ++
          formatCurrency e.laborCost,
        "Grand total: " ++ formatCurrency e.grandTotal])

/-- C6: the text renderer is deterministic — any two calls on the same
Estimate yield byte-identical output strings. -/
theorem renderText_deterministic (e₁ e₂ : Estimate) (h : e₁ = e₂) :
    renderText e₁ = renderText e₂ :=
  congrArg renderText h

/-- Witness for C6 at the scenario-1 estimate. -/
theorem renderText_deterministic_witness :
    createEstimate roomS1 pricesS1 = createEstimate roomS1 pricesS1 ∧
      renderText (createEstimate roomS1 pricesS1) =
        renderText (createEstimate roomS1 pricesS1) :=
  ⟨rfl, renderText_deterministic _ _ rfl⟩

/-!
The presentation layer, from `src/app.py` (`main`).  The nine numeric form
fields (four room dimensions, four unit prices, the labour rate) feed one
estimate computation per submission; the PDF path probes the reportlab
capability and falls back to text-only output.
-/

/-- The nine numeric form fields of `main` (`src/app.py:34-51`): length,
width, height, openings area, then the cross/floor/baseboard/disposal unit
prices and the labour rate. -/
structure FormInput where
  length : ℚ
  width : ℚ
  height : ℚ
  openings : ℚ
  crossPrice : ℚ
  floorPrice : ℚ
  baseboardPrice : ℚ
  disposalPrice : ℚ
  labourRate : ℚ
deriving DecidableEq, Repr

/-- The estimate computed on form submission (`src/app.py:54-62`): a fresh
`RoomMeasurements` is constructed from the four dimension fields, and every
field of the freshly constructed `UnitPrices` (the code's クロス, 床, 巾木,
処分費, 人件費率 — here the spec-named PriceCatalog fields) is overwritten
from the form before `create_estimate_for_room` is called. -/
def appComputeEstimate (defaults : PriceCatalog) (f : FormInput) : Estimate :=
  let room : RoomMeasurement :=
    { length := f.length, width := f.width, height := f.height,
      openingsArea := f.openings }
  let prices : PriceCatalog :=
    { defaults with
      wallCoveringUnitPrice := f.crossPrice,
      floorUnitPrice := f.floorPrice,
      baseboardUnitPrice := f.baseboardPrice,
      disposalUnitPrice := f.disposalPrice,
      laborRateFraction := f.labourRate }
  createEstimate room prices

/-- C10: the estimate depends only on the nine form values — the UnitPrices
default values are irrelevant because every field is overwritten from the
form before the calculation. -/
theorem appComputeEstimate_ignores_defaults
    (d₁ d₂ : PriceCatalog) (f : FormInput) :
    appComputeEstimate d₁ f = appComputeEstimate d₂ f := by
  cases d₁
  cases d₂
  rfl

/-- Environment of the app's PDF path: whether the reportlab capability is
present, whether document construction fails unexpectedly, and the path of
the named temporary file `src/app.py:97` opens. -/
structure PdfEnv where
  reportlabAvailable : Bool
  constructionFails : Bool
  tmpPath : String
deriving DecidableEq, Repr

/-- The error taxonomy of document rendering (spec §7). -/
inductive RenderCondition where
  | renderingUnavailable
  | renderingFailed
deriving DecidableEq, Repr

/-- Modelled from the spec: the probe call `estimate.to_pdf("/dev/null")`
(`src/app.py:72`) raises the RenderingUnavailable condition (a
`RuntimeError`) when the document-drawing capability is not present
(`interior_estimator.core` is not under `src/`). -/
def probeToPdf (env : PdfEnv) : Except RenderCondition Unit :=
  if env.reportlabAvailable then .ok () else .error .renderingUnavailable

/-- Modelled from the spec: the document replicates the same content as the
text report; the PDF backend is a black-box renderer consuming a list of
lines (spec §1, §4.3). -/
def renderDocumentLines (e : Estimate) : List String :=
  (renderText e).splitOn "\n"

/-- The inner PDF-construction block (`src/app.py:77-101`): write the
document to a named temporary file and read its bytes back; any unexpected
failure surfaces as a RenderingFailed condition.  Returns the document
content together with the filesystem paths this step writes. -/
def buildPdfViaTempFile (env : PdfEnv) (e : Estimate) :
    Except RenderCondition (List String × List String) :=
  if env.constructionFails then .error .renderingFailed
  else .ok (renderDocumentLines e, [env.tmpPath])

/-- The observable outcome of the post-submission rendering flow of `main`:
the text report shown, the reportlab-missing info message (`src/app.py:74`),
the generation-error message (`src/app.py:103`), the download offered
(`src/app.py:106-112`), the filesystem paths written, and any temporary
files left behind. -/
structure AppOutput where
  textShown : Option String
  infoShown : Bool
  errorShown : Bool
  download : Option (List String)
  fsWrites : List String
  tmpRemaining : List String
deriving DecidableEq, Repr

/-- The rendering flow of `main` after form submission (`src/app.py:64-112`):
show the text report; probe the PDF capability, falling back to an info
message when it is absent; otherwise build the PDF through `/dev/null` and a
named temporary file (deleted by its context manager even on failure),
discarding the buffer and showing an error on unexpected failure, and
offering the download only when a buffer exists. -/
def appRenderFlow (env : PdfEnv) (e : Estimate) : AppOutput :=
  let base : AppOutput :=
    { textShown := some (renderText e), infoShown := false, errorShown := false,
      download := none, fsWrites := [], tmpRemaining := [] }
  match probeToPdf env with
  | .error _ => { base with infoShown := true }
  | .ok _ =>
    match buildPdfViaTempFile env e with
    | .error _ =>
      { base with
        errorShown := true, download := none,
        fsWrites := ["/dev/null", env.tmpPath] }
    | .ok built =>
      { base with
        download := some built.1,
        fsWrites := "/dev/null" :: built.2 }

/-- C7: when the reportlab capability is absent, document rendering yields
the distinguishable RenderingUnavailable condition, the flow completes
normally, and the caller falls back to text-only output (info message shown,
no download). -/
theorem pdf_unavailable_falls_back_to_text
    (env : PdfEnv) (e : Estimate) (h : env.reportlabAvailable = false) :
    probeToPdf env = .error .renderingUnavailable ∧
      (appRenderFlow env e).textShown = some (renderText e) ∧
      (appRenderFlow env e).infoShown = true ∧
      (appRenderFlow env e).errorShown = false ∧
      (appRenderFlow env e).download = none := by
  have hp : probeToPdf env = .error .renderingUnavailable := by
    simp [probeToPdf, h]
  refine ⟨hp, ?_, ?_, ?_, ?_⟩ <;> simp [appRenderFlow, hp]

/-- Witness for C7: the scenario-1 estimate in an environment without
reportlab. -/
theorem pdf_unavailable_falls_back_to_text_witness :
    (PdfEnv.mk false false "/tmp/estimate0.pdf").reportlabAvailable = false ∧
      (appRenderFlow (PdfEnv.mk false false "/tmp/estimate0.pdf")
          (createEstimate roomS1 pricesS1)).download = none :=
  ⟨rfl,
    (pdf_unavailable_falls_back_to_text (PdfEnv.mk false false "/tmp/estimate0.pdf")
      (createEstimate roomS1 pricesS1) rfl).2.2.2.2⟩

/-- C8: when document construction fails unexpectedly, the flow shows a
user-visible error, discards the buffer, and offers no download — no
partial or corrupt document reaches the caller; the text report is still
shown. -/
theorem pdf_failure_discards_output
    (env : PdfEnv) (e : Estimate)
    (hav : env.reportlabAvailable = true) (hf : env.constructionFails = true) :
    (appRenderFlow env e).errorShown = true ∧
      (appRenderFlow env e).download = none ∧
      (appRenderFlow env e).textShown = some (renderText e) := by
  have hp : probeToPdf env = .ok () := by simp [probeToPdf, hav]
  have hb : buildPdfViaTempFile env e = .error .renderingFailed := by
    simp [buildPdfViaTempFile, hf]
  refine ⟨?_, ?_, ?_⟩ <;> simp [appRenderFlow, hp, hb]

/-- Witness for C8: the scenario-1 estimate in an environment where
construction fails. -/
theorem pdf_failure_discards_output_witness :
    (appRenderFlow (PdfEnv.mk true true "/tmp/estimate1.pdf")
        (createEstimate roomS1 pricesS1)).download = none :=
  (pdf_failure_discards_output (PdfEnv.mk true true "/tmp/estimate1.pdf")
    (createEstimate roomS1 pricesS1) rfl rfl).2.1

/-- C9 (counter-evidence): on a successful run the app's PDF path does write
to real filesystem paths — the `/dev/null` probe and the named temporary
file — contradicting the in-memory-only half of the claim, while the
temporary file is deleted afterwards (no leaked artifact). -/
theorem pdf_flow_writes_filesystem :
    (appRenderFlow (PdfEnv.mk true false "/tmp/estimate2.pdf")
        (createEstimate roomS1 pricesS1)).fsWrites =
      ["/dev/null", "/tmp/estimate2.pdf"] ∧
      (appRenderFlow (PdfEnv.mk true false "/tmp/estimate2.pdf")
          (createEstimate roomS1 pricesS1)).fsWrites ≠ [] ∧
      (appRenderFlow (PdfEnv.mk true false "/tmp/estimate2.pdf")
          (createEstimate roomS1 pricesS1)).tmpRemaining = [] := by
  refine ⟨rfl, ?_, rfl⟩
  intro h
  simp [appRenderFlow, probeToPdf, buildPdfViaTempFile] at h

end InteriorEstimator
